import Mathlib

/- Shallow embedding of the SerperClient event pipeline (SerperClient.js):
   the event classifier, field extractors, confidence scorer, normaliser and
   the searchEvents orchestrator, with proofs of the specified properties.

   Machine strings are embedded as Lean String / List Char; the regular
   expressions of the source are transcribed rule for rule into a small
   backtracking matcher (inductive RE below) with JavaScript semantics:
   leftmost match position, alternation in written order, greedy
   quantifiers with backtracking, ASCII word boundaries. -/

namespace Serper

/-- JavaScript whitespace class (ASCII part), used for the regex class \s
and the url scanner. -/
def jsSpace (c : Char) : Bool :=
  c == ' ' || c == '\t' || c == '\n' || c == '\r' || c == '\x0b' || c == '\x0c'

/-- ASCII uppercase letter, the class [A-Z] of a case-sensitive pattern. -/
def isAsciiUpper (c : Char) : Bool := 'A' ≤ c && c ≤ 'Z'

/-- ASCII lowercase letter. -/
def isAsciiLower (c : Char) : Bool := 'a' ≤ c && c ≤ 'z'

/-- ASCII letter, the class [A-Z] or [a-z] under the i flag. -/
def isAsciiAlpha (c : Char) : Bool := isAsciiUpper c || isAsciiLower c

/-- ASCII digit, the class \d. -/
def isDigitC (c : Char) : Bool := '0' ≤ c && c ≤ '9'

/-- JavaScript word character [A-Za-z0-9_], deciding the \b assertion. -/
def isWordChar (c : Char) : Bool := isAsciiAlpha c || isDigitC c || c == '_'

/-- The character class [a-zA-Z\s] of the classifier venue patterns. -/
def alphaSpace (c : Char) : Bool := isAsciiAlpha c || jsSpace c

/-- The character class of the venue extraction patterns: letters,
whitespace, ampersand, apostrophe and hyphen. -/
def venueClassChar (c : Char) : Bool :=
  isAsciiAlpha c || jsSpace c || c == '&' || c == Char.ofNat 39 || c == '-'

/-- Substring test on character lists: does the needle occur somewhere in
the haystack (the semantics of String.prototype.includes). -/
def listIncludes (needle : List Char) : List Char → Bool
  | [] => needle.isEmpty
  | c :: rest => needle.isPrefixOf (c :: rest) || listIncludes needle rest

/-- The JavaScript includes test: strIncludes hay needle is true when
needle occurs in hay as a contiguous substring. -/
def strIncludes (hay needle : String) : Bool :=
  listIncludes needle.toList hay.toList

/-- Character-wise lowercasing (String.prototype.toLowerCase on the ASCII
texts of this pipeline). -/
def strToLower (s : String) : String := String.mk (s.toList.map Char.toLower)

/-- String.prototype.trim: strip whitespace from both ends. -/
def strTrim (s : String) : String :=
  String.mk (((s.toList.dropWhile jsSpace).reverse.dropWhile jsSpace).reverse)

/-- JavaScript x plus fallback for optional string fields: undefined reads
as the empty string. -/
def orEmpty : Option String → String
  | none => ""
  | some s => s

/-- JavaScript falsiness of an optional string: undefined and the empty
string are falsy. -/
def strFalsy : Option String → Bool
  | none => true
  | some s => s == ""

/-- JavaScript a or-else b on optional strings, with empty-string a
treated as falsy (the title fallback of transformEvent). -/
def jsOrStr (a b : Option String) : Option String :=
  if strFalsy a then b else a

/-- A minimal regular-expression form, wide enough for every pattern in
SerperClient.js: literals, character classes with a repetition range,
tandem and alternation, option, numbered capture groups and the word
boundary assertion. -/
inductive RE where
  | eps
  | wb
  | str (lit : String)
  | cls (f : Char → Bool) (lo : Nat) (hi : Option Nat)
  | seq (a b : RE)
  | alt (a b : RE)
  | opt (r : RE)
  | grp (n : Nat) (r : RE)

/-- Case-insensitive or exact character comparison, the i flag. -/
def eqCharCi (ci : Bool) (a b : Char) : Bool :=
  if ci then a.toLower == b.toLower else a == b

/-- Strip a literal from the front of the input, returning the consumed
original characters and the rest; comparison honours the i flag while the
consumed text keeps its original case. -/
def stripLit (ci : Bool) : List Char → List Char → Option (List Char × List Char)
  | [], s => some ([], s)
  | _ :: _, [] => none
  | p :: ps, c :: cs =>
    if eqCharCi ci p c then
      (stripLit ci ps cs).map (fun x => (c :: x.1, x.2))
    else none

/-- All splits of a greedy class repetition f with count between lo and hi,
longest first (the backtracking order of a greedy quantifier). -/
def clsMatches (f : Char → Bool) (lo : Nat) (hi : Option Nat) (s : List Char) :
    List (List Char × List Char) :=
  let maxRun := (s.takeWhile f).length
  let cap := match hi with
    | some h => min maxRun h
    | none => maxRun
  if cap < lo then []
  else (List.range (cap - lo + 1)).map (fun i =>
    let k := cap - i
    (s.take k, s.drop k))

/-- Previous-character context after consuming a list of characters. -/
def updPrev (prev : Option Char) (consumed : List Char) : Option Char :=
  match consumed.getLast? with
  | some x => some x
  | none => prev

/-- Backtracking matcher: all ways to match a prefix of the input, in the
priority order of a JavaScript engine. Each way records the consumed
characters, the remaining input and the captured groups. -/
def matchRE (ci : Bool) : RE → Option Char → List Char →
    List (List Char × List Char × List (Nat × List Char))
  | .eps, _, s => [([], s, [])]
  | .wb, prev, s =>
    let a := match prev with
      | some c => isWordChar c
      | none => false
    let b := match s with
      | c :: _ => isWordChar c
      | [] => false
    if a != b then [([], s, [])] else []
  | .str lit, _, s =>
    match stripLit ci lit.toList s with
    | some x => [(x.1, x.2, [])]
    | none => []
  | .cls f lo hi, _, s => (clsMatches f lo hi s).map (fun x => (x.1, x.2, []))
  | .seq a b, prev, s =>
    (matchRE ci a prev s).flatMap (fun x =>
      (matchRE ci b (updPrev prev x.1) x.2.1).map (fun y =>
        (x.1 ++ y.1, y.2.1, x.2.2 ++ y.2.2)))
  | .alt a b, prev, s => matchRE ci a prev s ++ matchRE ci b prev s
  | .opt r, prev, s => matchRE ci r prev s ++ [([], s, [])]
  | .grp n r, prev, s =>
    (matchRE ci r prev s).map (fun x => (x.1, x.2.1, x.2.2 ++ [(n, x.1)]))

/-- Leftmost search: try the pattern at each position from left to right,
returning the first successful match with its captures. -/
def searchFrom (ci : Bool) (r : RE) (prev : Option Char) (s : List Char) :
    Option (List Char × List (Nat × List Char)) :=
  match matchRE ci r prev s with
  | x :: _ => some (x.1, x.2.2)
  | [] =>
    match s with
    | [] => none
    | c :: rest => searchFrom ci r (some c) rest

/-- The RegExp test method: does the pattern match anywhere in the text. -/
def reTest (ci : Bool) (r : RE) (text : String) : Bool :=
  (searchFrom ci r none text.toList).isSome

/-- Captured group n of the first match, when the pattern matches and the
group participated (String.prototype.match followed by group access). -/
def reCapture (ci : Bool) (r : RE) (n : Nat) (text : String) : Option String :=
  (searchFrom ci r none text.toList).bind (fun m =>
    (m.2.find? (fun p => p.1 == n)).map (fun p => String.mk p.2))

/-- Alternation of a list of literals, in written order. -/
def alts : List String → RE
  | [] => .cls (fun _ => false) 1 (some 1)
  | [x] => .str x
  | x :: xs => .alt (.str x) (alts xs)

/-- Sequencing of a list of pattern pieces. -/
def seqs : List RE → RE
  | [] => .eps
  | [r] => r
  | r :: rs => .seq r (seqs rs)

/-- Full month names, in the order written in every month alternation of
the source. -/
def monthNames : List String :=
  ["january", "february", "march", "april", "may", "june", "july",
   "august", "september", "october", "november", "december"]

/-- Weekday prefixes of the third classifier date pattern. -/
def weekdayNames : List String := ["mon", "tue", "wed", "thu", "fri", "sat", "sun"]

/-- Month abbreviations of the third classifier date pattern. -/
def monthAbbrs : List String :=
  ["jan", "feb", "mar", "apr", "may", "jun", "jul", "aug", "sep", "oct", "nov", "dec"]

/-- Classifier date pattern 1: \b(january|...|december)\s+\d{1,2} with i. -/
def dp1 : RE :=
  seqs [.wb, alts monthNames, .cls jsSpace 1 none, .cls isDigitC 1 (some 2)]

/-- Classifier date pattern 2: \b\d{1,2}\/\d{1,2}\/\d{2,4}\b, case sensitive. -/
def dp2 : RE :=
  seqs [.wb, .cls isDigitC 1 (some 2), .str "/", .cls isDigitC 1 (some 2),
        .str "/", .cls isDigitC 2 (some 4), .wb]

/-- Classifier date pattern 3: \b(mon|...|sun)[a-z]*\s*,?\s*(jan|...|dec) with i. -/
def dp3 : RE :=
  seqs [.wb, alts weekdayNames, .cls isAsciiAlpha 0 none, .cls jsSpace 0 none,
        .opt (.str ","), .cls jsSpace 0 none, alts monthAbbrs]

/-- Classifier date pattern 4: \b(today|tomorrow|tonight|this\s+(week|weekend|month))\b
with i. -/
def dp4 : RE :=
  seqs [.wb,
        .alt (.str "today")
          (.alt (.str "tomorrow")
            (.alt (.str "tonight")
              (.seq (.str "this")
                (.seq (.cls jsSpace 1 none) (alts ["week", "weekend", "month"]))))),
        .wb]

/-- Classifier date pattern 5: \b\d{1,2}(st|nd|rd|th)\s+(of\s+)?(january|...) with i. -/
def dp5 : RE :=
  seqs [.wb, .cls isDigitC 1 (some 2), alts ["st", "nd", "rd", "th"],
        .cls jsSpace 1 none, .opt (.seq (.str "of") (.cls jsSpace 1 none)),
        alts monthNames]

/-- The ordered date-pattern set of containsDatePattern, each with its
case-insensitivity flag. -/
def datePatterns : List (Bool × RE) :=
  [(true, dp1), (false, dp2), (true, dp3), (true, dp4), (true, dp5)]

/-- containsDatePattern from the source: some pattern of the set matches. -/
def containsDatePattern (text : String) : Bool :=
  datePatterns.any (fun p => reTest p.1 p.2 text)

/-- Classifier venue pattern 1: \b(at|@)\s+[A-Z][a-zA-Z\s]+\b, case sensitive. -/
def vp1 : RE :=
  seqs [.wb, .alt (.str "at") (.str "@"), .cls jsSpace 1 none,
        .cls isAsciiUpper 1 (some 1), .cls alphaSpace 1 none, .wb]

/-- Classifier venue pattern 2:
\b(venue|location|address|hall|center|theatre|theater|auditorium|stadium|arena)\b
with i. -/
def vp2 : RE :=
  seqs [.wb,
        alts ["venue", "location", "address", "hall", "center", "theatre",
              "theater", "auditorium", "stadium", "arena"],
        .wb]

/-- Classifier venue pattern 3:
\b\d+\s+[A-Z][a-zA-Z\s]+\s+(street|st|avenue|ave|road|rd|boulevard|blvd|drive|dr)\b
with i. -/
def vp3 : RE :=
  seqs [.wb, .cls isDigitC 1 none, .cls jsSpace 1 none,
        .cls isAsciiAlpha 1 (some 1), .cls alphaSpace 1 none, .cls jsSpace 1 none,
        alts ["street", "st", "avenue", "ave", "road", "rd", "boulevard",
              "blvd", "drive", "dr"],
        .wb]

/-- The ordered venue-pattern set of containsVenuePattern with flags. -/
def venuePatterns : List (Bool × RE) :=
  [(false, vp1), (true, vp2), (true, vp3)]

/-- containsVenuePattern from the source: some pattern of the set matches. -/
def containsVenuePattern (text : String) : Bool :=
  venuePatterns.any (fun p => reTest p.1 p.2 text)

/-- A raw provider result: organic results carry title, snippet and link;
people-also-ask entries carry question. Absent fields are none. -/
structure RawResult where
  title : Option String
  snippet : Option String
  link : Option String
  question : Option String
deriving DecidableEq, Repr

/-- The combined lowercased text the classifier searches, built from
title, snippet, link and question exactly as filterEventResults does. -/
def searchText (r : RawResult) : String :=
  strToLower (orEmpty r.title) ++ " " ++ strToLower (orEmpty r.snippet) ++ " " ++
  strToLower (orEmpty r.link) ++ " " ++ strToLower (orEmpty r.question)

/-- The keyword set of filterEventResults, in source order. -/
def eventKeywords : List String :=
  ["event", "festival", "concert", "conference", "workshop", "meetup",
   "seminar", "exhibition", "show", "performance", "gathering", "summit",
   "fair", "expo", "convention", "symposium", "webinar", "class",
   "eventbrite", "meetup.com", "facebook.com/events", "tickets",
   "registration", "rsvp", "calendar"]

/-- The per-result predicate of filterEventResults: keyword substring, or
a date pattern, or a venue pattern, over the combined text. -/
def isEventResult (r : RawResult) : Bool :=
  eventKeywords.any (fun k => strIncludes (searchText r) k) ||
  containsDatePattern (searchText r) ||
  containsVenuePattern (searchText r)

/-- filterEventResults from the source: keep the results the predicate
accepts, in their original order. -/
def filterEventResults (results : List RawResult) : List RawResult :=
  results.filter isEventResult

/-- A date value as the pipeline reports it: either the extraction-time
timestamp (the toISOString of the clock value now) or the toISOString of a
successfully parsed year/month/day. -/
inductive DateStamp where
  | extractionTime
  | date (year month day : Nat)
deriving DecidableEq, Repr

/-- The pair returned by extractDateInfo. -/
structure DateInfo where
  startDate : DateStamp
  endDate : DateStamp
deriving DecidableEq, Repr

/-- Extraction date pattern 1 with groups:
\b(january|...|december)\s+(\d{1,2}),?\s*(\d{4})? with i. -/
def edp1 : RE :=
  seqs [.wb, .grp 1 (alts monthNames), .cls jsSpace 1 none,
        .grp 2 (.cls isDigitC 1 (some 2)), .opt (.str ","),
        .cls jsSpace 0 none, .opt (.grp 3 (.cls isDigitC 4 (some 4)))]

/-- Extraction date pattern 2 with groups:
\b(\d{1,2})\/(\d{1,2})\/(\d{2,4})\b, case sensitive. -/
def edp2 : RE :=
  seqs [.wb, .grp 1 (.cls isDigitC 1 (some 2)), .str "/",
        .grp 2 (.cls isDigitC 1 (some 2)), .str "/",
        .grp 3 (.cls isDigitC 2 (some 4)), .wb]

/-- Extraction date pattern 3 with groups:
\b(\d{1,2})(st|nd|rd|th)\s+(january|...|december) with i. -/
def edp3 : RE :=
  seqs [.wb, .grp 1 (.cls isDigitC 1 (some 2)),
        .grp 2 (alts ["st", "nd", "rd", "th"]), .cls jsSpace 1 none,
        .grp 3 (alts monthNames)]

/-- The source text of the first extraction date regex, verbatim: the
interpreter of extractDateInfo dispatches on substring tests against
these strings (pattern.source in the code). -/
def edp1Source : String :=
  "\\b(january|february|march|april|may|june|july|august|september|october|november|december)\\s+(\\d\x7b1,2\x7d),?\\s*(\\d\x7b4\x7d)?"

/-- The source text of the second extraction date regex, verbatim. Note
the closing parenthesis between the digit class and the escaped slash:
because of it the interpreter dispatch never finds its slash needle in
this string, so matches of this pattern take the final interpreter
branch. -/
def edp2Source : String :=
  "\\b(\\d\x7b1,2\x7d)\\/(\\d\x7b1,2\x7d)\\/(\\d\x7b2,4\x7d)\\b"

/-- The source text of the third extraction date regex, verbatim. This
string does contain the month-name needle, so matches of the ordinal
pattern are routed through the month-name interpreter branch. -/
def edp3Source : String :=
  "\\b(\\d\x7b1,2\x7d)(st|nd|rd|th)\\s+(january|february|march|april|may|june|july|august|september|october|november|december)"

/-- The ordered pattern list of extractDateInfo, each pattern with its
regex source text and case-insensitivity flag. -/
def extractDatePatterns : List (String × Bool × RE) :=
  [(edp1Source, true, edp1), (edp2Source, false, edp2), (edp3Source, true, edp3)]

/-- Numeric value of a captured digit string. -/
def digitsToNat (s : String) : Nat :=
  s.toList.foldl (fun a c => a * 10 + (c.toNat - 48)) 0

/-- Month number of a captured month name (any case). -/
def monthNum (s : String) : Option Nat :=
  match strToLower s with
  | "january" => some 1
  | "february" => some 2
  | "march" => some 3
  | "april" => some 4
  | "may" => some 5
  | "june" => some 6
  | "july" => some 7
  | "august" => some 8
  | "september" => some 9
  | "october" => some 10
  | "november" => some 11
  | "december" => some 12
  | _ => none

/-- Group lookup in a capture list, as a string. -/
def capGet (caps : List (Nat × List Char)) (n : Nat) : Option String :=
  (caps.find? (fun p => p.1 == n)).map (fun p => String.mk p.2)

/-- Nonempty all-digit token. -/
def isDigitStr (s : String) : Bool := !(s == "") && s.toList.all isDigitC

/-- Modelled external dependency: the two-digit year widening of the V8
date parser (values 0..49 read as 2000..2049, 50..99 as 1950..1999),
applied to every year component of a non-ISO date string. -/
def jsYearNorm (y : Nat) : Nat :=
  if y ≤ 49 then 2000 + y else if y ≤ 99 then 1900 + y else y

/-- Modelled external dependency: new Date on a dateStr of the shape
month-token day-token, year-token as this file assembles it, per the V8
legacy parser, followed by the isNaN validity test of the source. When
the month token is a recognised month name, the day and year tokens must
be plain numbers and the day must lie in 1..31 (a day past the month
length rolls over in V8; no reachable claim exercises that, and the
triple is recorded without rollover). When all three tokens are numbers,
V8 reads them as month, day, year if the first fits a day (1..31), and
as year, month, day otherwise. Any other token shape, such as the
ordinal suffix in the day slot or a month name in the year slot, fails
to parse and yields an invalid date. -/
def jsParseMonthDayYear (ms ds ys : String) : Option DateStamp :=
  match monthNum ms with
  | some m =>
    if isDigitStr ds && isDigitStr ys then
      let d := digitsToNat ds
      if 1 ≤ d && d ≤ 31 then some (.date (jsYearNorm (digitsToNat ys)) m d)
      else none
    else none
  | none =>
    if isDigitStr ms && isDigitStr ds && isDigitStr ys then
      let a := digitsToNat ms
      let b := digitsToNat ds
      let c := digitsToNat ys
      if 1 ≤ a && a ≤ 31 then
        if 1 ≤ a && a ≤ 12 && 1 ≤ b && b ≤ 31 then
          some (.date (jsYearNorm c) a b)
        else none
      else
        if 1 ≤ b && b ≤ 12 && 1 ≤ c && c ≤ 31 then
          some (.date (jsYearNorm a) b c)
        else none
    else none

/-- The interpreter of extractDateInfo, dispatching exactly as the source
does on substring tests against the regex source text. The first branch
(month-name) fires for the first AND the third pattern, since both
source strings contain the month alternation: for the ordinal pattern
this puts the digits in the month slot, the st/nd/rd/th suffix in the
day slot and the captured month name in the year slot (via the truthy
match group), a dateStr that never parses. The second branch is dead:
no pattern source contains the slash needle, because a closing
parenthesis interrupts it. The final branch therefore receives the
slash-pattern matches, reading day from group 1 and month from group 3
(the year digits) with the current year. -/
def interpretDateMatch (nowYear : Nat) (src : String)
    (caps : List (Nat × List Char)) : Option DateStamp :=
  if strIncludes src "january|february" then
    match capGet caps 1, capGet caps 2 with
    | some ms, some ds =>
      let ys := match capGet caps 3 with
        | some y => if y == "" then toString nowYear else y
        | none => toString nowYear
      jsParseMonthDayYear ms ds ys
    | _, _ => none
  else if strIncludes src "\\d\x7b1,2\x7d\\/" then
    match capGet caps 1, capGet caps 2, capGet caps 3 with
    | some ms, some ds, some ys =>
      jsParseMonthDayYear ms ds (if ys.length == 2 then "20" ++ ys else ys)
    | _, _, _ => none
  else
    match capGet caps 1, capGet caps 3 with
    | some ds, some ms => jsParseMonthDayYear ms ds (toString nowYear)
    | _, _ => none

/-- The matching loop of extractDateInfo: first pattern whose match parses
to a valid date wins; a match with an invalid parse falls through to the
next pattern, exactly as the for loop with break does. -/
def firstValidDate (nowYear : Nat) :
    List (String × Bool × RE) → String → Option DateStamp
  | [], _ => none
  | (src, ci, re) :: ps, text =>
    match searchFrom ci re none text.toList with
    | some m =>
      match interpretDateMatch nowYear src m.2 with
      | some d => some d
      | none => firstValidDate nowYear ps text
    | none => firstValidDate nowYear ps text

/-- extractDateInfo from the source: the first valid parsed date gives
both startDate and endDate; otherwise both are the extraction time. -/
def extractDateInfo (nowYear : Nat) (text : String) : DateInfo :=
  match firstValidDate nowYear extractDatePatterns text with
  | some d => { startDate := d, endDate := d }
  | none => { startDate := .extractionTime, endDate := .extractionTime }

/-- Venue extraction pattern 1 with its capture group, i flag:
\b(?:at|@)\s+([A-Z][a-zA-Z\s&amp-apostrophe-hyphen]+(?:Center|Centre|Hall|Theatre|
Theater|Auditorium|Stadium|Arena|Club|Bar|Restaurant|Hotel|Museum|Gallery|Park))\b. -/
def evp1 : RE :=
  seqs [.wb, .alt (.str "at") (.str "@"), .cls jsSpace 1 none,
        .grp 1 (seqs [.cls isAsciiAlpha 1 (some 1), .cls venueClassChar 1 none,
          alts ["Center", "Centre", "Hall", "Theatre", "Theater", "Auditorium",
                "Stadium", "Arena", "Club", "Bar", "Restaurant", "Hotel",
                "Museum", "Gallery", "Park"]]),
        .wb]

/-- Venue extraction pattern 2, i flag: a bare capitalised run ending in
Center|Centre|Hall|Theatre|Theater|Auditorium|Stadium|Arena, with \b on
both sides. -/
def evp2 : RE :=
  seqs [.wb,
        .grp 1 (seqs [.cls isAsciiAlpha 1 (some 1), .cls venueClassChar 1 none,
          alts ["Center", "Centre", "Hall", "Theatre", "Theater", "Auditorium",
                "Stadium", "Arena"]]),
        .wb]

/-- Venue extraction pattern 3, i flag:
\b(?:venue|location):\s*([A-Z][a-zA-Z\s&amp-apostrophe-hyphen]+). -/
def evp3 : RE :=
  seqs [.wb, .alt (.str "venue") (.str "location"), .str ":",
        .cls jsSpace 0 none,
        .grp 1 (seqs [.cls isAsciiAlpha 1 (some 1), .cls venueClassChar 1 none])]

/-- The ordered venue extraction patterns; all carry the i flag. -/
def extractVenuePatterns : List RE := [evp1, evp2, evp3]

/-- Capture group 1 of a venue pattern on the text, when it matches. -/
def venueCapture (p : RE) (text : String) : Option String :=
  reCapture true p 1 text

/-- The loop of extractVenue: first pattern whose match has a truthy
group 1 returns the trimmed capture; otherwise the sentinel. -/
def extractVenueLoop : List RE → String → String
  | [], _ => "See Event Page"
  | p :: ps, text =>
    match venueCapture p text with
    | some c => if c == "" then extractVenueLoop ps text else strTrim c
    | none => extractVenueLoop ps text

/-- extractVenue from the source. -/
def extractVenue (text : String) : String :=
  extractVenueLoop extractVenuePatterns text

/-- The fixed ticketing-platform allow-list of extractTicketUrl. -/
def ticketDomains : List String :=
  ["eventbrite.com", "ticketmaster.com", "universe.com", "brownpapertickets.com"]

/-- The includes test guarded by definedness, as eventUrl and
eventUrl.includes(domain) evaluates on a possibly-undefined url. -/
def jsOptIncludes : Option String → String → Bool
  | none, _ => false
  | some s, d => strIncludes s d

/-- Helper for the global url pattern: does the literal start the list
under exact comparison. -/
def startsWithLit (lit : String) (s : List Char) : Bool :=
  lit.toList.isPrefixOf s

/-- All matches of https?:\/\/[^\s]+ in order, non-overlapping, each the
maximal whitespace-free run from an http or https scheme with at least
one character after the separator; scanning resumes after each match. -/
def findUrlsAux : Nat → List Char → List String
  | 0, _ => []
  | _ + 1, [] => []
  | fuel + 1, c :: rest =>
    let s := c :: rest
    let scheme : Nat :=
      if startsWithLit "https://" s then 8
      else if startsWithLit "http://" s then 7 else 0
    if scheme == 0 then findUrlsAux fuel rest
    else
      let run := s.takeWhile (fun x => !jsSpace x)
      if scheme < run.length then
        String.mk run :: findUrlsAux fuel (rest.drop (run.length - 1))
      else findUrlsAux fuel rest

/-- Entry point of the url scan; the fuel of the auxiliary scanner is the
input length, which the scan never exhausts since every step consumes at
least one character. -/
def findUrls (s : List Char) : List String := findUrlsAux s.length s

/-- extractTicketUrl from the source: an allow-listed eventUrl is returned
unchanged; otherwise the first allow-listed url found in the snippet;
otherwise none. -/
def extractTicketUrl (eventUrl : Option String) (snippet : String) : Option String :=
  if ticketDomains.any (fun d => jsOptIncludes eventUrl d) then eventUrl
  else (findUrls snippet.toList).find?
    (fun u => ticketDomains.any (fun d => strIncludes u d))

/-- The event-platform domain allow-list of calculateConfidence. -/
def eventDomains : List String :=
  ["eventbrite.com", "meetup.com", "facebook.com/events", "lu.ma"]

/-- The core event-keyword set of calculateConfidence. -/
def confKeywords : List String :=
  ["event", "festival", "concert", "conference", "workshop"]

/-- The combined lowercased text calculateConfidence scores: title,
snippet and link only. -/
def confidenceText (r : RawResult) : String :=
  strToLower (orEmpty r.title ++ " " ++ orEmpty r.snippet ++ " " ++ orEmpty r.link)

/-- The binary64 value of the literal 0.6, as an integer count of units
of 2 to the power minus 57: every constant of the scorer and every
reachable partial sum is such a multiple, so the double arithmetic of
the source embeds exactly in these integers. -/
def d06 : Nat := 86469112845513520

/-- The binary64 value of the literal 0.2 in units of 2 to the minus 57. -/
def d02 : Nat := 28823037615171176

/-- The binary64 value of the literal 0.1 in units of 2 to the minus 57. -/
def d01 : Nat := 14411518807585588

/-- The binary64 value of the literal 0.05 in units of 2 to the minus 57. -/
def d005 : Nat := 7205759403792794

/-- The value 1.0 in units of 2 to the minus 57. -/
def oneD : Nat := 144115188075855872

/-- Round to the nearest multiple of u, ties to the even multiple. -/
def roundMul (v u : Nat) : Nat :=
  let q := v / u
  let r := v % u
  if 2 * r < u then u * q
  else if u < 2 * r then u * (q + 1)
  else u * (q + q % 2)

/-- Round an exact sum in units of 2 to the minus 57 to binary64
precision: below 1.0 the unit in the last place is 2 to the minus 53
(16 units), from 1.0 up to 2.0 it is 2 to the minus 52 (32 units);
every sum of the scorer lies in this range. -/
def fpRound57 (v : Nat) : Nat :=
  if v < oneD then roundMul v 16 else roundMul v 32

/-- IEEE-754 binary64 addition (round to nearest, ties to even) on the
range of the scorer: the semantics of the += of the source. -/
def addD (a b : Nat) : Nat := fpRound57 (a + b)

/-- calculateConfidence from the source: base 0.6, four independent
conditional boosts added in binary64 arithmetic, clamped by Math.min
with 1.0, reported as the exact rational value of the resulting double
(so the sum of all four boosts is 0.9500000000000001, one unit in the
last place above 0.95). -/
def calculateConfidence (r : RawResult) (category : String) : ℚ :=
  let text := confidenceText r
  let c0 : Nat := d06
  let c1 := if eventDomains.any (fun d => strIncludes text d) then addD c0 d02 else c0
  let c2 := if strIncludes text (strToLower category) then addD c1 d01 else c1
  let c3 := if confKeywords.any (fun k => strIncludes text k) then addD c2 d01 else c2
  let c4 := if containsDatePattern text then addD c3 d005 else c3
  ((min c4 oneD : Nat) : ℚ) / 2 ^ 57

/-- The slug map of the event id: non-alphanumeric characters become
underscores, then the whole is lowercased. -/
def eventId (title : String) : String :=
  "serper_" ++ strToLower (String.mk (title.toList.map
    (fun c => if isAsciiAlpha c || isDigitC c then c else '_')))

/-- The normalised event record transformEvent assembles. -/
structure Event where
  id : String
  title : String
  description : String
  category : String
  venue : String
  location : String
  startDate : DateStamp
  endDate : DateStamp
  eventUrl : Option String
  ticketUrl : Option String
  source : String
  confidence : ℚ
  thumbnail : Option String
deriving DecidableEq, Repr

/-- transformEvent from the source: title falls back to question; a falsy
title drops the result (none); otherwise the record is assembled from the
extractors and the scorer. The catch branch of the source is unreachable
for the modelled inputs, so the function is total. -/
def transformEvent (nowYear : Nat) (r : RawResult) (category : String) :
    Option Event :=
  let titleQ := jsOrStr r.title r.question
  if strFalsy titleQ then none
  else
    let title := orEmpty titleQ
    let snippet := orEmpty r.snippet
    let dateInfo := extractDateInfo nowYear (title ++ " " ++ snippet)
    let venue := extractVenue (title ++ " " ++ snippet)
    some {
      id := eventId title
      title := title
      description := if snippet == "" then
        "Event details available on the event page." else snippet
      category := category
      venue := venue
      location := venue
      startDate := dateInfo.startDate
      endDate := dateInfo.endDate
      eventUrl := r.link
      ticketUrl := extractTicketUrl r.link snippet
      source := "serper_api"
      confidence := calculateConfidence r category
      thumbnail := none }

/-- The parsed provider payload: the optional provider-reported error
field, organic results, people-also-ask entries and related searches
(modelled as the strings r.query falls back to). -/
structure SerperData where
  error : Option String
  organic : List RawResult
  peopleAlsoAsk : List RawResult
  relatedSearches : List String
deriving Repr

/-- The outcome of the external fetch: a thrown exception (network
failure or abort on timeout), or a response with its ok flag, status,
error body and the result of parsing the body as JSON. -/
inductive FetchOutcome where
  | exn (msg : String)
  | resp (ok : Bool) (status : Nat) (body : String) (json : Except String SerperData)

/-- The metadata object of a success envelope. -/
structure Metadata where
  totalOrganic : Nat
  relatedSearches : List String
deriving DecidableEq, Repr

/-- The response envelope of searchEvents. -/
structure Envelope where
  success : Bool
  events : List Event
  count : Nat
  processingTime : Nat
  source : String
  error : Option String
  metadata : Option Metadata
deriving DecidableEq, Repr

/-- The failure envelope the catch branch of searchEvents builds. -/
def failEnvelope (msg : String) (pt : Nat) : Envelope :=
  { success := false, error := some msg, events := [], count := 0,
    processingTime := pt, source := "serper", metadata := none }

/-- searchEvents from the source, with the external fetch outcome, the
current year and the measured elapsed time as parameters: every path of
the try block that throws lands in the catch branch, which returns the
failure envelope; the success path filters, truncates to the limit,
transforms (dropping nulls) and packages the success envelope. -/
def searchEvents (category : String) (limit : Nat) (nowYear : Nat)
    (outcome : FetchOutcome) (pt : Nat) : Envelope :=
  match outcome with
  | .exn msg => failEnvelope msg pt
  | .resp ok status body json =>
    if !ok then failEnvelope ("HTTP " ++ toString status ++ ": " ++ body) pt
    else
      match json with
      | .error msg => failEnvelope msg pt
      | .ok data =>
        if !(strFalsy data.error) then failEnvelope (orEmpty data.error) pt
        else
          let results := data.organic ++ data.peopleAlsoAsk
          let eventResults := filterEventResults results
          let transformedEvents := (eventResults.take limit).filterMap
            (fun r => transformEvent nowYear r category)
          { success := true, events := transformedEvents,
            count := transformedEvents.length, processingTime := pt,
            source := "serper", error := none,
            metadata := some { totalOrganic := data.organic.length,
                               relatedSearches := data.relatedSearches.take 5 } }

/-- The raw result of the specified end-to-end scenario. -/
def jazzResult : RawResult :=
  { title := some "Jazz Festival at Blue Note on March 15, 2025",
    snippet := some "Tickets available on eventbrite.com",
    link := some "https://eventbrite.com/jazz",
    question := none }

/-- The text transformEvent hands to the extractors for jazzResult:
title, a space, snippet. -/
def jazzText : String :=
  "Jazz Festival at Blue Note on March 15, 2025 Tickets available on eventbrite.com"

/-- A result whose combined text holds a date pattern and nothing else the
classifier looks for. -/
def todayResult : RawResult :=
  { title := some "today", snippet := none, link := none, question := none }

/-- A result with neither title nor question; the classifier accepts it
through the rsvp keyword, the normaliser then drops it. -/
def titlelessResult : RawResult :=
  { title := none, snippet := some "rsvp now", link := none, question := none }

/-- A well-formed companion result for the batch demonstrations. -/
def concertResult : RawResult :=
  { title := some "Concert tonight", snippet := some "", link := some "",
    question := none }

/-- The date loop fails when no pattern of the list matches at all. -/
theorem firstValidDate_eq_none (nowYear : Nat)
    (ps : List (String × Bool × RE)) (text : String)
    (h : ∀ p ∈ ps, searchFrom p.2.1 p.2.2 none text.toList = none) :
    firstValidDate nowYear ps text = none := by
  induction ps with
  | nil => rfl
  | cons p ps ih =>
    obtain ⟨src, ci, re⟩ := p
    have hp := h (src, ci, re) (List.mem_cons_self _ ps)
    simp only [firstValidDate, hp]
    exact ih (fun q hq => h q (List.mem_cons_of_mem _ hq))

/-- C1. For every RawResult and category, calculateConfidence lands in
[0, 1]: the sum starts at the base 0.6, each of the four boosts is
nonnegative, and the result is clamped by min with 1.0, so the bound
holds of the binary64 values the source computes. -/
theorem calculateConfidence_bounds (r : RawResult) (category : String) :
    0 ≤ calculateConfidence r category ∧ calculateConfidence r category ≤ 1 := by
  simp only [calculateConfidence]
  constructor
  · positivity
  · rw [div_le_one (by norm_num)]
    refine le_trans (Nat.cast_le.mpr (min_le_right _ oneD)) ?_
    norm_num [oneD]

/-- C10. calculateConfidence reads only title, snippet and link: two
results differing only in their question field score identically, while
the classifier does distinguish them. -/
theorem calculateConfidence_ignores_question :
    (∀ (t s l q q2 : Option String) (category : String),
      calculateConfidence ⟨t, s, l, q⟩ category =
        calculateConfidence ⟨t, s, l, q2⟩ category) ∧
    isEventResult ⟨some "hello", none, none, some "rsvp"⟩ = true ∧
    isEventResult ⟨some "hello", none, none, none⟩ = false := by
  refine ⟨fun t s l q q2 category => rfl, by decide, by decide⟩

/-- C2. Every failure before or during the provider call (a thrown fetch,
a non-2xx response, a body that fails to parse, or a provider-reported
error field) yields the failure envelope as a value: success false, no
events, count 0 and the corresponding message. -/
theorem searchEvents_failure (cat : String) (lim ny : Nat) (pt : Nat) :
    (∀ msg, searchEvents cat lim ny (.exn msg) pt = failEnvelope msg pt) ∧
    (∀ status body json,
      searchEvents cat lim ny (.resp false status body json) pt =
        failEnvelope ("HTTP " ++ toString status ++ ": " ++ body) pt) ∧
    (∀ status body msg,
      searchEvents cat lim ny (.resp true status body (.error msg)) pt =
        failEnvelope msg pt) ∧
    (∀ status body e org paa rel, e ≠ "" →
      searchEvents cat lim ny
          (.resp true status body (.ok ⟨some e, org, paa, rel⟩)) pt =
        failEnvelope e pt) ∧
    (∀ msg, (failEnvelope msg pt).success = false ∧
      (failEnvelope msg pt).events = [] ∧ (failEnvelope msg pt).count = 0 ∧
      (failEnvelope msg pt).error = some msg) := by
  refine ⟨fun msg => rfl, fun status body json => rfl, fun status body msg => rfl,
    ?_, fun msg => ⟨rfl, rfl, rfl, rfl⟩⟩
  intro status body e org paa rel he
  have hf : strFalsy (some e) = false := by simp [strFalsy, he]
  simp [searchEvents, hf, orEmpty]

/-- C2 witness: a provider-reported error field at concrete inputs. -/
theorem searchEvents_failure_witness :
    searchEvents "music" 5 2025
        (.resp true 200 "body" (.ok ⟨some "quota exceeded", [], [], []⟩)) 3 =
      failEnvelope "quota exceeded" 3 :=
  (searchEvents_failure "music" 5 2025 3).2.2.2.1 200 "body" "quota exceeded"
    [] [] [] (by decide)

/-- C8. A successful searchEvents invocation returns at most limit events
and a count equal to the length of the events sequence. -/
theorem searchEvents_respects_limit (cat : String) (lim ny status pt : Nat)
    (body : String) (org paa : List RawResult) (rel : List String) :
    (searchEvents cat lim ny (.resp true status body
        (.ok ⟨none, org, paa, rel⟩)) pt).success = true ∧
    (searchEvents cat lim ny (.resp true status body
        (.ok ⟨none, org, paa, rel⟩)) pt).count =
      (searchEvents cat lim ny (.resp true status body
        (.ok ⟨none, org, paa, rel⟩)) pt).events.length ∧
    (searchEvents cat lim ny (.resp true status body
        (.ok ⟨none, org, paa, rel⟩)) pt).events.length ≤ lim := by
  refine ⟨rfl, rfl, ?_⟩
  show (((filterEventResults (org ++ paa)).take lim).filterMap
    (fun r => transformEvent ny r cat)).length ≤ lim
  calc (((filterEventResults (org ++ paa)).take lim).filterMap
      (fun r => transformEvent ny r cat)).length
      ≤ ((filterEventResults (org ++ paa)).take lim).length :=
        List.length_filterMap_le _ _
    _ ≤ lim := by rw [List.length_take]; exact min_le_left _ _

/-- C9. A RawResult with neither title nor question is dropped by the
normaliser (none, not an error), and a batch containing such a result
continues: the titleless result passes the classifier, transforms to
none, and the surrounding searchEvents call still emits the surviving
event of its companion. -/
theorem transformEvent_drops_titleless :
    (∀ (ny : Nat) (snippet link : Option String) (cat : String),
      transformEvent ny ⟨none, snippet, link, none⟩ cat = none) ∧
    isEventResult titlelessResult = true ∧
    transformEvent 2025 titlelessResult "music" = none ∧
    (searchEvents "music" 10 2025 (.resp true 200 ""
      (.ok ⟨none, [titlelessResult, concertResult], [], []⟩)) 5).events.length = 1 ∧
    (searchEvents "music" 10 2025 (.resp true 200 ""
      (.ok ⟨none, [titlelessResult, concertResult], [], []⟩)) 5).count = 1 := by
  refine ⟨fun ny snippet link cat => rfl, by decide, by decide, by decide, by decide⟩

/-- C3. The classifier is a pure OR over the combined text of title,
snippet, link and question: filterEventResults keeps exactly the results
whose predicate holds, the predicate is the disjunction of the keyword,
date-pattern and venue-pattern tests, and a result carrying only a date
pattern is accepted. -/
theorem filterEventResults_is_or :
    (∀ (rs : List RawResult) (r : RawResult),
      r ∈ filterEventResults rs ↔ r ∈ rs ∧ isEventResult r = true) ∧
    (∀ r : RawResult, isEventResult r = true ↔
      ((eventKeywords.any fun k => strIncludes (searchText r) k) = true ∨
       containsDatePattern (searchText r) = true ∨
       containsVenuePattern (searchText r) = true)) ∧
    (eventKeywords.any fun k => strIncludes (searchText todayResult) k) = false ∧
    containsVenuePattern (searchText todayResult) = false ∧
    containsDatePattern (searchText todayResult) = true ∧
    filterEventResults [todayResult] = [todayResult] := by
  refine ⟨?_, ?_, by decide, by decide, by decide, by decide⟩
  · intro rs r
    simp [filterEventResults, List.mem_filter]
  · intro r
    simp [isEventResult, Bool.or_eq_true, or_assoc]

/-- C3 witness: the date-only result is kept by the filter. -/
theorem filterEventResults_is_or_witness :
    todayResult ∈ filterEventResults [todayResult] :=
  (filterEventResults_is_or.1 [todayResult] todayResult).mpr
    ⟨List.mem_singleton_self _, by decide⟩

/-- C4. extractDateInfo always returns endDate equal to startDate; when
no pattern matches, or every match fails to parse, both equal the
extraction time; a missing year in a month-name match defaults to the
current year; an invalid parsed date is rejected and the loop continues
to the next pattern; the patterns apply in fixed order with the first
valid parse winning. The concrete conjuncts follow the interpreter
dispatch of the source: a slash match is read day-first through the
final branch, so 3/4/12 parses as December 3 of the current year via
the dateStr 12 3, 2025, while 13/13/2025 builds the invalid 2025 13,
2025 and an ordinal match builds the never-parsing 3 rd, march, so the
last input falls through to the extraction time. -/
theorem extractDateInfo_spec (ny : Nat) (text : String) :
    (extractDateInfo ny text).endDate = (extractDateInfo ny text).startDate ∧
    (firstValidDate ny extractDatePatterns text = none →
      extractDateInfo ny text = ⟨.extractionTime, .extractionTime⟩) ∧
    ((∀ p ∈ extractDatePatterns, searchFrom p.2.1 p.2.2 none text.toList = none) →
      extractDateInfo ny text = ⟨.extractionTime, .extractionTime⟩) ∧
    extractDateInfo 2025 "march 5" = ⟨.date 2025 3 5, .date 2025 3 5⟩ ∧
    extractDateInfo 2025 "march 45 then 3/4/12" =
      ⟨.date 2025 12 3, .date 2025 12 3⟩ ∧
    extractDateInfo 2025 "march 5 and 3/4/12" =
      ⟨.date 2025 3 5, .date 2025 3 5⟩ ∧
    extractDateInfo 2025 "13/13/2025 but 3rd march" =
      ⟨.extractionTime, .extractionTime⟩ := by
  refine ⟨?_, ?_, ?_, by decide, by decide, by decide, by decide⟩
  · unfold extractDateInfo
    cases firstValidDate ny extractDatePatterns text <;> rfl
  · intro h
    simp [extractDateInfo, h]
  · intro h
    simp [extractDateInfo, firstValidDate_eq_none ny _ text h]

/-- C4 witness: the fallback clause at a concrete matchless input. -/
theorem extractDateInfo_spec_witness :
    extractDateInfo 7 "hello" = ⟨.extractionTime, .extractionTime⟩ :=
  (extractDateInfo_spec 7 "hello").2.2.1 (by decide)

/-- C6. extractVenue applies the venue patterns in their fixed order:
the first pattern whose match yields a truthy capture determines the
result, which is exactly that capture trimmed; when the first (or the
first two) patterns yield no truthy capture the next pattern decides;
and when none does, the result is exactly the sentinel See Event Page. -/
theorem extractVenue_spec (text : String) :
    (∀ c, venueCapture evp1 text = some c → c ≠ "" →
      extractVenue text = strTrim c) ∧
    ((venueCapture evp1 text = none ∨ venueCapture evp1 text = some "") →
      ∀ c, venueCapture evp2 text = some c → c ≠ "" →
        extractVenue text = strTrim c) ∧
    ((venueCapture evp1 text = none ∨ venueCapture evp1 text = some "") →
      (venueCapture evp2 text = none ∨ venueCapture evp2 text = some "") →
      ∀ c, venueCapture evp3 text = some c → c ≠ "" →
        extractVenue text = strTrim c) ∧
    ((venueCapture evp1 text = none ∨ venueCapture evp1 text = some "") →
      (venueCapture evp2 text = none ∨ venueCapture evp2 text = some "") →
      (venueCapture evp3 text = none ∨ venueCapture evp3 text = some "") →
      extractVenue text = "See Event Page") := by
  refine ⟨?_, ?_, ?_, ?_⟩
  · intro c hc hne
    have hb : (c == "") = false := by simp [hne]
    simp [extractVenue, extractVenuePatterns, extractVenueLoop, hc, hb]
  · intro h1 c hc hne
    have hb : (c == "") = false := by simp [hne]
    rcases h1 with h1 | h1 <;>
      simp [extractVenue, extractVenuePatterns, extractVenueLoop, h1, hc, hb]
  · intro h1 h2 c hc hne
    have hb : (c == "") = false := by simp [hne]
    rcases h1 with h1 | h1 <;> rcases h2 with h2 | h2 <;>
      simp [extractVenue, extractVenuePatterns, extractVenueLoop, h1, h2, hc, hb]
  · intro h1 h2 h3
    rcases h1 with h1 | h1 <;> rcases h2 with h2 | h2 <;> rcases h3 with h3 | h3 <;>
      simp [extractVenue, extractVenuePatterns, extractVenueLoop, h1, h2, h3]

/-- C6 witness: the first pattern captures, and its trimmed capture is
returned. -/
theorem extractVenue_spec_witness :
    extractVenue "Concert at Carnegie Hall tonight" = strTrim "Carnegie Hall" :=
  (extractVenue_spec "Concert at Carnegie Hall tonight").1 "Carnegie Hall"
    (by decide) (by decide)

/-- C7. extractTicketUrl returns an allow-listed eventUrl unchanged;
otherwise the first url of the snippet whose domain is allow-listed;
otherwise none. -/
theorem extractTicketUrl_spec (eventUrl : Option String) (snippet : String) :
    ((ticketDomains.any fun d => jsOptIncludes eventUrl d) = true →
      extractTicketUrl eventUrl snippet = eventUrl) ∧
    ((ticketDomains.any fun d => jsOptIncludes eventUrl d) = false →
      extractTicketUrl eventUrl snippet =
        (findUrls snippet.toList).find?
          (fun u => ticketDomains.any fun d => strIncludes u d)) ∧
    ((ticketDomains.any fun d => jsOptIncludes eventUrl d) = false →
      (∀ u ∈ findUrls snippet.toList,
        (ticketDomains.any fun d => strIncludes u d) = false) →
      extractTicketUrl eventUrl snippet = none) := by
  refine ⟨fun h => by simp [extractTicketUrl, h], fun h => by simp [extractTicketUrl, h], ?_⟩
  intro h hall
  simp only [extractTicketUrl, h, Bool.false_eq_true, if_false]
  exact List.find?_eq_none.mpr (fun u hu => by simp [hall u hu])

/-- C7 witness: an allow-listed event url is returned unchanged. -/
theorem extractTicketUrl_spec_witness :
    extractTicketUrl (some "https://eventbrite.com/x") "" =
      some "https://eventbrite.com/x" :=
  (extractTicketUrl_spec (some "https://eventbrite.com/x") "").1 (by decide)

/-- The confidence of the scenario result: the binary64 sum of the base
0.6 and the domain, keyword and date boosts is 8556839292003943 units of
2 to the minus 53, one unit in the last place above 0.95. -/
theorem jazzConfidence :
    calculateConfidence jazzResult "music" = 8556839292003943 / 2 ^ 53 := by
  have h1 : (eventDomains.any fun d =>
      strIncludes (confidenceText jazzResult) d) = true := by decide
  have h2 : strIncludes (confidenceText jazzResult) (strToLower "music") = false := by
    decide
  have h3 : (confKeywords.any fun k =>
      strIncludes (confidenceText jazzResult) k) = true := by decide
  have h4 : containsDatePattern (confidenceText jazzResult) = true := by decide
  have hv : min (addD (addD (addD d06 d02) d01) d005) oneD =
      136909428672063088 := by decide
  simp only [calculateConfidence, h1, h2, h3, h4, if_true, if_false,
    Bool.false_eq_true]
  rw [hv]
  norm_num

/-- C5 counterexample: on the specified scenario input, the extracted
venue is the sentinel and does not contain Blue Note, and the confidence
is not 0.95 (the binary64 sum lands one unit in the last place above
it), refuting the venue and confidence conjuncts of the scenario. -/
theorem jazz_scenario_venue_counterexample :
    extractVenue jazzText = "See Event Page" ∧
    strIncludes (extractVenue jazzText) "Blue Note" = false ∧
    calculateConfidence jazzResult "music" ≠ 0.95 := by
  refine ⟨by decide, by decide, ?_⟩
  rw [jazzConfidence]
  norm_num

/-- C5 (amended). On the specified scenario: the classifier accepts the
result; the extracted date resolves to March 15, 2025; the ticket url
equals the link; there is no category boost since music is not literally
present; the confidence is the binary64 value of 0.6 + 0.2 + 0.1 + 0.05,
which is 0.9500000000000001 (one unit in the last place above 0.95), in
particular at least 0.95; and the extracted venue is the sentinel See
Event Page, since no venue pattern captures Blue Note. -/
theorem jazz_scenario :
    isEventResult jazzResult = true ∧
    extractDateInfo 2025 jazzText = ⟨.date 2025 3 15, .date 2025 3 15⟩ ∧
    extractTicketUrl jazzResult.link (orEmpty jazzResult.snippet) = jazzResult.link ∧
    strIncludes (confidenceText jazzResult) (strToLower "music") = false ∧
    calculateConfidence jazzResult "music" = 8556839292003943 / 2 ^ 53 ∧
    (0.95 : ℚ) ≤ calculateConfidence jazzResult "music" ∧
    extractVenue jazzText = "See Event Page" := by
  refine ⟨by decide, by decide, by decide, by decide, jazzConfidence, ?_, by decide⟩
  rw [jazzConfidence]
  norm_num

end Serper
